import Mathlib

/-!
Verification development for the IBF/ICP document-comparison pipeline
(`App_per.py`).  The Python source is shallowly embedded below: strings are
Lean `String`s (lists of characters), Python floats are modelled as real
numbers, the scikit-learn `TfidfVectorizer`/`cosine_similarity` pair fit on
the two-string corpus is modelled by its documented exact semantics
(lowercasing, tokens = maximal runs of at least two word characters,
smoothed idf over the two-document corpus, l2-normalised cosine), and a
raised `ValueError` is an `Except.error`.  Python's `re.search` on the
patterns used by the source (literal, whitespace class, lazy dot-all group,
literal) is embedded as an executable backtracking search with the same
leftmost/greedy/lazy priorities.
-/

/-- Python `str.strip()` on a list of characters: drop whitespace from both
ends. -/
def pyStripL (l : List Char) : List Char :=
  ((l.dropWhile Char.isWhitespace).reverse.dropWhile Char.isWhitespace).reverse

/-- Python `str.strip()`. -/
def pyStrip (s : String) : String := ⟨pyStripL s.data⟩

/-- Python `str.rstrip(":")` on a list of characters: drop all trailing
colon characters. -/
def pyRstripColonL (l : List Char) : List Char :=
  (l.reverse.dropWhile (fun c => c == ':')).reverse

/-- Python `str.rstrip(":")`. -/
def pyRstripColon (s : String) : String := ⟨pyRstripColonL s.data⟩

/-- Python `str.replace("\n", " ")`: the pattern is a single character, so
the replacement is character-wise. -/
def replaceNl (s : String) : String :=
  ⟨s.data.map (fun c => if c = '\n' then ' ' else c)⟩

/-- Maximal runs of characters satisfying `p`, in order, separators
discarded (the accumulator holds the current run reversed). -/
def runsBy (p : Char → Bool) : List Char → List Char → List (List Char)
  | [], acc => if acc.isEmpty then [] else [acc.reverse]
  | c :: cs, acc =>
      if p c then runsBy p cs (c :: acc)
      else (if acc.isEmpty then [] else [acc.reverse]) ++ runsBy p cs []

/-- Python `" ".join(s.split())`: whitespace-normalisation used on every
extracted span (`" ".join(match.group(1).split())`). -/
def wsNormalize (l : List Char) : List Char :=
  List.intercalate [' '] (runsBy (fun c => !c.isWhitespace) l [])

/-- A regex word character (`\w`): alphanumeric or underscore (ASCII
scope). -/
def isWordChar (c : Char) : Bool := c.isAlphanum || c == '_'

/-- Tokenisation performed by `TfidfVectorizer` with default settings:
lowercase, then keep the maximal word-character runs of length at least two
(token pattern `\w\w+`). -/
def tokens (s : String) : List String :=
  ((runsBy isWordChar (s.data.map Char.toLower) []).filter
    (fun r => 2 ≤ r.length)).map (fun r => ⟨r⟩)

/-- Vocabulary of the two-document corpus `[a, b]` fit by
`TfidfVectorizer().fit([a, b])`. -/
def vocab (a b : String) : Finset String := (tokens a ++ tokens b).toFinset

/-- Term frequency of term `t` in document `d`. -/
def tf (t d : String) : ℕ := (tokens d).count t

/-- Document frequency of `t` over the corpus `[a, b]`. -/
def df (t a b : String) : ℕ :=
  (if t ∈ tokens a then 1 else 0) + (if t ∈ tokens b then 1 else 0)

/-- Smoothed inverse document frequency used by `TfidfVectorizer`
(`smooth_idf=True`, corpus size 2): `ln((1+2)/(1+df)) + 1`. -/
noncomputable def idf (t a b : String) : ℝ :=
  Real.log (3 / (1 + (df t a b : ℝ))) + 1

/-- Unnormalised tf-idf weight of term `t` in document `d` for the corpus
`[a, b]`. -/
noncomputable def tw (t d a b : String) : ℝ := (tf t d : ℝ) * idf t a b

/-- Dot product of the tf-idf vectors of documents `p` and `q` over the
vocabulary of the corpus `[a, b]`. -/
noncomputable def dotp (a b p q : String) : ℝ :=
  ∑ t ∈ vocab a b, tw t p a b * tw t q a b

/-- Cosine similarity of the two tf-idf rows, with scikit-learn's
zero-vector convention (a zero row stays zero under l2 normalisation, so
the product is `0`). -/
noncomputable def cossim (a b : String) : ℝ :=
  if dotp a b a a = 0 ∨ dotp a b b b = 0 then 0
  else dotp a b a b / (Real.sqrt (dotp a b a a) * Real.sqrt (dotp a b b b))

/-- `text_similarity` from `App_per.py`.  `if not a or not b: return 0.0`;
then `TfidfVectorizer().fit([a, b])` raises `ValueError` ("empty
vocabulary") when neither string yields a token, modelled as
`Except.error ()`; otherwise the cosine similarity of the two tf-idf
rows. -/
noncomputable def text_similarity (a b : String) : Except Unit ℝ :=
  if a = "" ∨ b = "" then .ok 0
  else if vocab a b = ∅ then .error ()
  else .ok (cossim a b)

/-- The canonical field record produced by both parsers (`fields` dict in
the source; keys "Title", "Issue ID", "Description", "Issue Impact",
"Issue Root Cause"). -/
structure Fields where
  title : String
  issueId : String
  description : String
  issueImpact : String
  issueRootCause : String
deriving DecidableEq, Repr

/-- The similarity-score dictionary returned by `compute_similarity`
(keys "Issue ID", "Title", "Description", "Issue Root Cause",
"Issue Impact", "Overall"). -/
structure Scores where
  issueId : ℝ
  title : ℝ
  description : ℝ
  issueRootCause : ℝ
  issueImpact : ℝ
  overall : ℝ

/-- `compute_similarity` from `App_per.py`: the Issue ID score is exact
string equality; the four text scores may raise (propagating
`text_similarity`'s `ValueError`); `Overall` is `sum(scores.values()) /
len(scores)` computed while the dict holds exactly the five field
scores. -/
noncomputable def compute_similarity (f1 f2 : Fields) : Except Unit Scores :=
  match text_similarity f1.title f2.title,
        text_similarity f1.description f2.description,
        text_similarity f1.issueRootCause f2.issueRootCause,
        text_similarity f1.issueImpact f2.issueImpact with
  | .ok t, .ok d, .ok r, .ok i =>
      let sId : ℝ := if f1.issueId = f2.issueId then 1 else 0
      .ok ⟨sId, t, d, r, i, (sId + t + d + r + i) / 5⟩
  | _, _, _, _ => .error ()

/-- `to_match_label` from `App_per.py`: `"Match" if score >= threshold
else "Mismatch"`. -/
noncomputable def to_match_label (score threshold : ℝ) : String :=
  if threshold ≤ score then "Match" else "Mismatch"

/-- The per-field classification performed in `main`:
`to_match_label(score, threshold if field != "Issue ID" else 1.0)`. -/
noncomputable def simResultLabel (field : String) (score threshold : ℝ) : String :=
  to_match_label score (if field ≠ "Issue ID" then threshold else 1)

/-- Literal match: `litMatch pat t` holds when `pat` is an initial segment
of `t` (character-wise). -/
def litMatch : List Char → List Char → Bool
  | [], _ => true
  | _ :: _, [] => false
  | a :: pa, b :: tb => a == b && litMatch pa tb

/-- Index of the first position of `t` at which `pat` matches literally. -/
def findLit (pat : List Char) : List Char → Option Nat
  | [] => if litMatch pat [] then some 0 else none
  | c :: rest =>
      if litMatch pat (c :: rest) then some 0
      else (findLit pat rest).map (· + 1)

/-- Number of leading whitespace characters (maximal `\s` run). -/
def leadingWs : List Char → Nat
  | [] => 0
  | c :: rest => if c.isWhitespace then leadingWs rest + 1 else 0

/-- Lazy group then closing literal: the shortest non-empty prefix of `v`
followed by a match of `lit2` (the regex tail `(.+?)lit2` under
`re.DOTALL`). -/
def minCapture (lit2 v : List Char) : Option (List Char) :=
  (findLit lit2 (v.drop 1)).map (fun j => v.take (j + 1))

/-- Backtracking over the whitespace run: `\s+` (or `\s*` when `reqWs` is
false) is greedy, so the widths `w, w-1, …` are tried in descending order,
and for each width the lazy group takes the shortest completion. -/
def tryW (lit2 u : List Char) (reqWs : Bool) : Nat → Option (List Char)
  | 0 => if reqWs then none else minCapture lit2 u
  | w + 1 =>
      match minCapture lit2 (u.drop (w + 1)) with
      | some g => some g
      | none => tryW lit2 u reqWs w

/-- Attempt the full pattern `lit1 \s+ (.+?) lit2` (or `\s*`) anchored at
the start of `t`. -/
def tryAt (reqWs : Bool) (lit1 lit2 t : List Char) : Option (List Char) :=
  if litMatch lit1 t then
    tryW lit2 (t.drop lit1.length) reqWs (leadingWs (t.drop lit1.length))
  else none

/-- `re.search` for the patterns used by the source: scan start positions
left to right and return the group of the first position admitting a full
match. -/
def reSearchL (reqWs : Bool) (lit1 lit2 : List Char) : List Char → Option (List Char)
  | [] => none
  | c :: rest =>
      match tryAt reqWs lit1 lit2 (c :: rest) with
      | some g => some g
      | none => reSearchL reqWs lit1 lit2 rest

/-- A span-extraction step of the source: `re.search(lit1 + ws + "(.+?)" +
lit2, blob, re.DOTALL)` followed by `" ".join(group.split())`. -/
def reExtract (reqWs : Bool) (lit1 lit2 blob : String) : Option String :=
  (reSearchL reqWs lit1.data lit2.data blob.data).map (fun g => ⟨wsNormalize g⟩)

/-- Key-value map built by the table walkers: a Python dict keyed by
strings (later insertions shadow earlier ones). -/
def KV : Type := String → Option String

/-- The empty dict. -/
def kvEmpty : KV := fun _ => none

/-- Dict insertion `kv[k] = v`. -/
def kvUpdate (m : KV) (k v : String) : KV :=
  fun q => if q = k then some v else m q

/-- Cell cleaning in the PDF walker:
`c.strip().replace("\n", " ") if c else ""`. -/
def cleanCell : Option String → String
  | none => ""
  | some s => if s = "" then "" else replaceNl (pyStrip s)

/-- The PDF table walker's inner loop over one row of cleaned cells:
`key = cells[i].rstrip(":").strip(); value = cells[i+1].strip();
if key: kv_map[key] = value; i += 2`. -/
def pdfWalkCells (m : KV) : List String → KV
  | k :: v :: rest =>
      pdfWalkCells
        (if pyStrip (pyRstripColon k) = "" then m
         else kvUpdate m (pyStrip (pyRstripColon k)) (pyStrip v)) rest
  | _ => m

/-- The DOCX table walker's inner loop over one row of (pre-stripped)
cells: `key = cells[i].rstrip(":"); value = cells[i+1];
if key and value: kv_map[key.strip()] = value.strip(); i += 2`. -/
def docxWalkCells (m : KV) : List String → KV
  | k :: v :: rest =>
      docxWalkCells
        (if pyRstripColon k ≠ "" ∧ v ≠ "" then
           kvUpdate m (pyStrip (pyRstripColon k)) (pyStrip v)
         else m) rest
  | _ => m

/-- One page of the PDF as seen by the parser after `pdfplumber`
extraction: its tables (grids of possibly-`None` cells) and the result of
`page.extract_text()`. -/
structure PdfPage where
  tables : List (List (List (Option String)))
  text : Option String
deriving DecidableEq

/-- The key-value map accumulated over all tables of all pages
(`for page: for table: for row: …`), with cells cleaned first. -/
def pdfKvOf (pages : List PdfPage) : KV :=
  ((pages.map (·.tables)).flatten).foldl
    (fun m table => table.foldl
      (fun m row => pdfWalkCells m (row.map cleanCell)) m) kvEmpty

/-- `"\n".join(paragraph_text_parts)`: page texts are appended only when
truthy (non-`None` and non-empty). -/
def pdfCombined (pages : List PdfPage) : String :=
  String.intercalate "\n"
    (pages.filterMap (fun p =>
      match p.text with
      | some r => if r = "" then none else some r
      | none => none))

/-- Field assembly of `parse_issue_briefing_pdf_from_file` given the
key-value map and the combined text blob. -/
def pdfFromParts (kv : KV) (blob : String) : Fields where
  title := (kv "Title").getD ""
  issueId :=
    match kv "Issue ID" with
    | some v => v
    | none => (kv "Issue\nID").getD ""
  description := (reExtract true "Description" "Issue Impact" blob).getD ""
  issueImpact := (reExtract true "Issue Impact" "Issue Root Cause" blob).getD ""
  issueRootCause :=
    (reExtract true "Issue Root Cause" "Overall Issue Rating" blob).getD ""

/-- `parse_issue_briefing_pdf_from_file`, embedded from the point after
`pdfplumber` has produced each page's tables and text. -/
def parse_issue_briefing_pdf (pages : List PdfPage) : Fields :=
  pdfFromParts (pdfKvOf pages) (pdfCombined pages)

/-- A DOCX document as seen by the parser after `python-docx` extraction:
paragraph texts and table cell texts. -/
structure DocxDoc where
  paragraphs : List String
  tables : List (List (List String))
deriving DecidableEq

/-- The DOCX key-value map over all tables (`cells = [cell.text.strip()
for cell in row.cells]` then the pair walk). -/
def docxKvOf (tables : List (List (List String))) : KV :=
  tables.foldl
    (fun m table => table.foldl
      (fun m row => docxWalkCells m (row.map pyStrip)) m) kvEmpty

/-- The DOCX combined blob: `"\n".join(paragraphs) + "\n" +
"\n".join(all table cells)`. -/
def docxCombined (d : DocxDoc) : String :=
  String.intercalate "\n" d.paragraphs ++ "\n" ++
    String.intercalate "\n" (d.tables.map List.flatten).flatten

/-- Field assembly of `parse_icp_docx_from_file` given the key-value map
and the combined blob (note the DOCX patterns use `\s*` and colon-bearing
markers, and Issue Impact has a second-choice closing marker). -/
def docxFromParts (kv : KV) (blob : String) : Fields where
  title := (kv "Issue Title").getD ""
  issueId := (kv "Source System Issue Reference").getD ""
  description :=
    (reExtract false "Issue Description:" "Issue Root Cause:" blob).getD ""
  issueImpact :=
    match reExtract false "Issue Impact:" "Background Context:" blob with
    | some s => s
    | none => (reExtract false "Issue Impact:" "Section C:" blob).getD ""
  issueRootCause :=
    (reExtract false "Issue Root Cause:" "Issue Impact:" blob).getD ""

/-- `parse_icp_docx_from_file`, embedded from the point after
`python-docx` has produced the paragraph and table texts. -/
def parse_icp_docx (d : DocxDoc) : Fields :=
  docxFromParts (docxKvOf d.tables) (docxCombined d)

/-- Split a character list into its lines (separator `'\n'`, kept
lossless: `joinNl (splitNl l) = l`). -/
def splitNl : List Char → List (List Char)
  | [] => [[]]
  | c :: rest =>
      if c = '\n' then [] :: splitNl rest
      else
        match splitNl rest with
        | [] => [[c]]
        | l :: ls => (c :: l) :: ls

/-- Rejoin lines with `'\n'`. -/
def joinNl : List (List Char) → List Char
  | [] => []
  | [l] => l
  | l :: l₂ :: ls => l ++ '\n' :: joinNl (l₂ :: ls)

/-- Modelled from the spec: the floating-label removal pre-pass the spec
describes ("before span extraction, any line consisting solely of a label
phrase (no other content) is deleted from the blob"), which has no
counterpart in `App_per.py`.  A line counts as a label line when its
trimmed content equals one of the given label phrases. -/
def stripLabelLines (labels : List String) (blob : String) : String :=
  ⟨joinNl ((splitNl blob.data).filter
    (fun ln => !(decide ((⟨pyStripL ln⟩ : String) ∈ labels))))⟩

/-- The PDF parser's field label phrases (the canonical five). -/
def pdfLabels : List String :=
  ["Title", "Issue ID", "Description", "Issue Impact", "Issue Root Cause"]

/-- The DOCX parser's field label phrases as they appear in its lookup
keys and span markers. -/
def docxLabels : List String :=
  ["Issue Title", "Source System Issue Reference", "Issue Description:",
   "Issue Root Cause:", "Issue Impact:"]

/-- The PDF parser as the spec describes it for claim C2: span extraction
run on the label-stripped blob instead of the raw blob. -/
def pdfParseStripped (pages : List PdfPage) : Fields :=
  pdfFromParts (pdfKvOf pages) (stripLabelLines pdfLabels (pdfCombined pages))

/-- The DOCX parser as the spec describes it for claim C2: span extraction
run on the label-stripped blob instead of the raw blob. -/
def docxParseStripped (d : DocxDoc) : Fields :=
  docxFromParts (docxKvOf d.tables) (stripLabelLines docxLabels (docxCombined d))

/-- Modelled from the spec: the fixed-shape identifier scan the spec
describes for IssueID ("a literal prefix followed by a run of
digits/identifier characters scanned across the full blob — prefer the
first occurrence in document order"), which has no counterpart in
`App_per.py`.  The literal prefix is `"ISSUE-"` (the spec's example
identifiers are `ISSUE-123` and `ISSUE-00077693`). -/
def specIssueIdScanL : List Char → Option String
  | [] => none
  | c :: rest =>
      if litMatch "ISSUE-".data (c :: rest) then
        match (c :: rest).drop 6 |>.takeWhile isWordChar with
        | [] => specIssueIdScanL rest
        | run => some ⟨"ISSUE-".data ++ run⟩
      else specIssueIdScanL rest

/-- Modelled from the spec (string wrapper for `specIssueIdScanL`). -/
def specIssueIdScan (blob : String) : Option String :=
  specIssueIdScanL blob.data

/-- C6: for every pair of field records, the Overall score equals the
unweighted arithmetic mean of exactly the five field scores (Issue ID,
Title, Description, Issue Root Cause, Issue Impact), with the divisor
fixed at 5 regardless of how many fields are empty. -/
theorem C6_overall_is_mean_of_five (f1 f2 : Fields) (s : Scores)
    (h : compute_similarity f1 f2 = .ok s) :
    s.overall =
      (s.issueId + s.title + s.description + s.issueRootCause + s.issueImpact) / 5 := by
  unfold compute_similarity at h
  split at h
  · injection h with h
    rw [← h]
  · exact absurd h (by simp)

/-- C6 witness: a concrete successful comparison (all text fields empty,
differing Issue IDs). -/
theorem C6_overall_is_mean_of_five_witness :
    (⟨0, 0, 0, 0, 0, (0 + 0 + 0 + 0 + 0) / 5⟩ : Scores).overall =
      ((⟨0, 0, 0, 0, 0, (0 + 0 + 0 + 0 + 0) / 5⟩ : Scores).issueId +
       (⟨0, 0, 0, 0, 0, (0 + 0 + 0 + 0 + 0) / 5⟩ : Scores).title +
       (⟨0, 0, 0, 0, 0, (0 + 0 + 0 + 0 + 0) / 5⟩ : Scores).description +
       (⟨0, 0, 0, 0, 0, (0 + 0 + 0 + 0 + 0) / 5⟩ : Scores).issueRootCause +
       (⟨0, 0, 0, 0, 0, (0 + 0 + 0 + 0 + 0) / 5⟩ : Scores).issueImpact) / 5 :=
  C6_overall_is_mean_of_five ⟨"", "id1", "", "", ""⟩ ⟨"", "id2", "", "", ""⟩ _ rfl

/-- C7: the Issue ID field score is 1.0 exactly when the two Issue ID
strings are equal and 0.0 otherwise, hence always in {0.0, 1.0}; two
empty Issue ID strings score 1.0. -/
theorem C7_issue_id_score_exact_equality (f1 f2 : Fields) (s : Scores)
    (h : compute_similarity f1 f2 = .ok s) :
    s.issueId = (if f1.issueId = f2.issueId then (1 : ℝ) else 0) ∧
    (s.issueId = 0 ∨ s.issueId = 1) ∧
    (f1.issueId = "" → f2.issueId = "" → s.issueId = 1) := by
  unfold compute_similarity at h
  split at h
  · injection h with h
    refine ⟨by rw [← h], ?_, ?_⟩
    · by_cases hid : f1.issueId = f2.issueId
      · right; rw [← h]; simp [hid]
      · left; rw [← h]; simp [hid]
    · intro h1 h2
      rw [← h]
      simp [h1, h2]
  · exact absurd h (by simp)

/-- C7 witness: identical records with empty Issue IDs score 1.0. -/
theorem C7_issue_id_score_exact_equality_witness :
    (⟨1, 0, 0, 0, 0, (1 + 0 + 0 + 0 + 0) / 5⟩ : Scores).issueId = 1 :=
  (C7_issue_id_score_exact_equality ⟨"", "", "", "", ""⟩ ⟨"", "", "", "", ""⟩ _
    rfl).2.2 rfl rfl

/-- C8: classification yields Match iff score >= threshold, and the Issue
ID field is always classified against threshold 1.0, ignoring the
caller-supplied threshold used for every other field. -/
theorem C8_match_iff_and_issue_id_threshold :
    (∀ s t : ℝ, to_match_label s t = "Match" ↔ t ≤ s) ∧
    (∀ s t u : ℝ, simResultLabel "Issue ID" s t = simResultLabel "Issue ID" s u) ∧
    (∀ s t : ℝ, simResultLabel "Issue ID" s t = to_match_label s 1) ∧
    (∀ (f : String) (s t : ℝ), f ≠ "Issue ID" →
      simResultLabel f s t = to_match_label s t) := by
  have hlab : ∀ s t : ℝ, simResultLabel "Issue ID" s t = to_match_label s 1 := by
    intro s t
    unfold simResultLabel
    rw [if_neg (by simp)]
  refine ⟨?_, ?_, hlab, ?_⟩
  · intro s t
    unfold to_match_label
    constructor
    · intro hm
      by_contra hts
      rw [if_neg hts] at hm
      exact absurd hm (by decide)
    · intro hts
      rw [if_pos hts]
  · intro s t u
    rw [hlab, hlab]
  · intro f s t hf
    unfold simResultLabel
    rw [if_pos hf]

/-- C8 witness: concrete instances of each conjunct. -/
theorem C8_match_iff_and_issue_id_threshold_witness :
    (to_match_label 1 1 = "Match" ↔ (1 : ℝ) ≤ 1) ∧
    simResultLabel "Issue ID" 0 (1 / 2) = simResultLabel "Issue ID" 0 (3 / 4) ∧
    simResultLabel "Issue ID" 0 (1 / 2) = to_match_label 0 1 ∧
    simResultLabel "Title" 1 (1 / 2) = to_match_label 1 (1 / 2) :=
  ⟨C8_match_iff_and_issue_id_threshold.1 1 1,
   C8_match_iff_and_issue_id_threshold.2.1 0 (1 / 2) (3 / 4),
   C8_match_iff_and_issue_id_threshold.2.2.1 0 (1 / 2),
   C8_match_iff_and_issue_id_threshold.2.2.2 "Title" 1 (1 / 2) (by decide)⟩

/-- Membership in a stripped list implies membership in the original. -/
theorem mem_pyStripL {c : Char} {l : List Char} (h : c ∈ pyStripL l) : c ∈ l := by
  unfold pyStripL at h
  rw [List.mem_reverse] at h
  replace h := (List.dropWhile_sublist _).mem h
  rw [List.mem_reverse] at h
  exact (List.dropWhile_sublist _).mem h

/-- Membership after `rstrip(":")` implies membership in the original. -/
theorem mem_pyRstripColonL {c : Char} {l : List Char} (h : c ∈ pyRstripColonL l) :
    c ∈ l := by
  unfold pyRstripColonL at h
  rw [List.mem_reverse] at h
  replace h := (List.dropWhile_sublist _).mem h
  rwa [List.mem_reverse] at h

/-- The output of `replace("\n", " ")` contains no newline. -/
theorem replaceNl_no_nl (s : String) : '\n' ∉ (replaceNl s).data := by
  intro h
  simp only [replaceNl, List.mem_map] at h
  obtain ⟨x, -, hx⟩ := h
  by_cases hxn : x = '\n' <;> simp [hxn] at hx

/-- A cleaned PDF cell contains no newline (the `replace("\n", " ")`
step). -/
theorem cleanCell_no_nl (c : Option String) : '\n' ∉ (cleanCell c).data := by
  match c with
  | none => simp [cleanCell]
  | some s =>
      show '\n' ∉ (if s = "" then "" else replaceNl (pyStrip s)).data
      by_cases hs : s = ""
      · rw [if_pos hs]; simp
      · rw [if_neg hs]; exact replaceNl_no_nl _

/-- Keys inserted by the PDF walker contain no newline. -/
theorem pdfKey_no_nl (c : Option String) :
    '\n' ∉ (pyStrip (pyRstripColon (cleanCell c))).data := by
  intro h
  exact cleanCell_no_nl c (mem_pyRstripColonL (mem_pyStripL h))

/-- A dict is newline-free when every key holding a value has no newline
in it. -/
def NlFree (m : KV) : Prop := ∀ k : String, '\n' ∈ k.data → m k = none

/-- Generic preservation of a predicate along `List.foldl`. -/
theorem foldl_pres {α β : Type} (P : α → Prop) (f : α → β → α)
    (hf : ∀ a b, P a → P (f a b)) : ∀ (l : List β) (a : α), P a → P (l.foldl f a) := by
  intro l
  induction l with
  | nil => intro a ha; exact ha
  | cons x xs ih =>
      intro a ha
      rw [List.foldl_cons]
      exact ih (f a x) (hf a x ha)

/-- Insertion of a newline-free key preserves newline-freeness. -/
theorem nlFree_update {m : KV} {k v : String} (hm : NlFree m)
    (hk : '\n' ∉ k.data) : NlFree (kvUpdate m k v) := by
  intro q hq
  unfold kvUpdate
  rw [if_neg (by rintro rfl; exact hk hq)]
  exact hm q hq


/-- Two-step induction on lists, matching the pair-consuming shape of the
table walkers. -/
theorem pairInduction {α : Type} {motive : List α → Prop} (h0 : motive [])
    (h1 : ∀ a, motive [a]) (h2 : ∀ a b l, motive l → motive (a :: b :: l)) :
    ∀ l, motive l := by
  have H : ∀ (n : ℕ) (l : List α), l.length ≤ n → motive l := by
    intro n
    induction n with
    | zero =>
        intro l hl
        rw [List.length_eq_zero.mp (Nat.le_zero.mp hl)]
        exact h0
    | succ n ih =>
        intro l hl
        match l with
        | [] => exact h0
        | [a] => exact h1 a
        | a :: b :: t =>
            refine h2 a b t (ih t ?_)
            simp only [List.length_cons] at hl
            omega
  exact fun l => H l.length l le_rfl

/-- The PDF walker preserves newline-freeness when all its cells are
newline-free. -/
theorem nlFree_pdfWalkCells :
    ∀ (cells : List String), (∀ c ∈ cells, '\n' ∉ c.data) →
      ∀ m : KV, NlFree m → NlFree (pdfWalkCells m cells) := by
  refine pairInduction ?_ ?_ ?_
  · intro _ m hm; exact hm
  · intro a _ m hm; exact hm
  · intro k v rest ih hc m hm
    show NlFree (pdfWalkCells _ rest)
    refine ih (fun c hcc => hc c (by simp [hcc])) _ ?_
    split
    · exact hm
    · refine nlFree_update hm ?_
      intro h
      have hk : '\n' ∈ (⟨pyStripL (pyRstripColonL k.data)⟩ : String).data := by
        simpa [pyStrip, pyRstripColon] using h
      exact hc k (by simp) (mem_pyRstripColonL (mem_pyStripL hk))

/-- C10: in the PDF parser the fallback lookup of the key `"Issue\nID"`
never supplies a value: cell cleaning removes every newline before keys
are inserted, so no key containing a newline can exist, and the parsed
Issue ID always equals the map's value for `"Issue ID"` (default `""`). -/
theorem C10_newline_key_lookup_dead (ps : List PdfPage) :
    (∀ k : String, '\n' ∈ k.data → pdfKvOf ps k = none) ∧
    (parse_issue_briefing_pdf ps).issueId = (pdfKvOf ps "Issue ID").getD "" := by
  have hfree : NlFree (pdfKvOf ps) := by
    unfold pdfKvOf
    refine foldl_pres NlFree _ ?_ _ kvEmpty (fun k _ => rfl)
    intro m table hm
    refine foldl_pres NlFree _ ?_ table m hm
    intro m₂ row hm₂
    refine nlFree_pdfWalkCells (row.map cleanCell) ?_ m₂ hm₂
    intro c hcc
    rw [List.mem_map] at hcc
    obtain ⟨x, -, rfl⟩ := hcc
    exact cleanCell_no_nl x
  refine ⟨hfree, ?_⟩
  have hdead : pdfKvOf ps "Issue\nID" = none := hfree _ (by decide)
  unfold parse_issue_briefing_pdf pdfFromParts
  cases h : pdfKvOf ps "Issue ID" with
  | none => simp [h, hdead]
  | some v => simp [h]

/-- C10 witness: on a concrete document whose table holds a literal
`"Issue\nID"` cell, the cleaned key is `"Issue ID"` and the newline key is
dead. -/
theorem C10_newline_key_lookup_dead_witness :
    pdfKvOf [⟨[[[some "Issue\nID:", some "X-1"]]], none⟩] "Issue\nID" = none ∧
    (parse_issue_briefing_pdf [⟨[[[some "Issue\nID:", some "X-1"]]], none⟩]).issueId =
      (pdfKvOf [⟨[[[some "Issue\nID:", some "X-1"]]], none⟩] "Issue ID").getD "" :=
  ⟨(C10_newline_key_lookup_dead [⟨[[[some "Issue\nID:", some "X-1"]]], none⟩]).1
      "Issue\nID" (by decide),
   (C10_newline_key_lookup_dead [⟨[[[some "Issue\nID:", some "X-1"]]], none⟩]).2⟩

/-- Walking an even-length prefix then a suffix equals walking them in
sequence (PDF walker). -/
theorem pdfWalkCells_append :
    ∀ cells : List String, cells.length % 2 = 0 →
      ∀ (m : KV) (suffix : List String),
        pdfWalkCells m (cells ++ suffix) = pdfWalkCells (pdfWalkCells m cells) suffix := by
  refine pairInduction ?_ ?_ ?_
  · intro _ m suffix; rfl
  · intro a h; simp at h
  · intro k v rest ih h m suffix
    have hrest : rest.length % 2 = 0 := by
      simp only [List.length_cons] at h; omega
    show pdfWalkCells _ (rest ++ suffix) = pdfWalkCells (pdfWalkCells _ rest) suffix
    exact ih hrest _ suffix

/-- Walking an even-length prefix then a suffix equals walking them in
sequence (DOCX walker). -/
theorem docxWalkCells_append :
    ∀ cells : List String, cells.length % 2 = 0 →
      ∀ (m : KV) (suffix : List String),
        docxWalkCells m (cells ++ suffix) = docxWalkCells (docxWalkCells m cells) suffix := by
  refine pairInduction ?_ ?_ ?_
  · intro _ m suffix; rfl
  · intro a h; simp at h
  · intro k v rest ih h m suffix
    have hrest : rest.length % 2 = 0 := by
      simp only [List.length_cons] at h; omega
    show docxWalkCells _ (rest ++ suffix) = docxWalkCells (docxWalkCells _ rest) suffix
    exact ih hrest _ suffix

/-- C4 counterexample: in the DOCX walker a repeated label whose last
occurrence carries an empty value keeps the EARLIER value ("1"), not the
last occurrence's value (""), because `if key and value` skips pairs with
empty values; this falsifies "the value of the last occurrence is the one
kept" as a property of the Table Walker. -/
theorem C4_counterexample :
    (docxKvOf [[["A:", "1"], ["A:", ""]]]) "A" = some "1" ∧
      some "1" ≠ (some "" : Option String) := by
  refine ⟨by decide, by decide⟩

/-- C4 amended: both walkers pair consecutive cells (label with trailing
colons stripped, then value), an odd final cell is unused, and an empty
normalized label inserts no key; the PDF walker always keeps the last
occurrence's value, while the DOCX walker also skips pairs whose value is
empty, so there the last occurrence with a non-empty value wins. -/
theorem C4_walker_pairing_amended :
    (∀ (m : KV) (cells : List String) (c : String), cells.length % 2 = 0 →
      pdfWalkCells m (cells ++ [c]) = pdfWalkCells m cells) ∧
    (∀ (m : KV) (cells : List String) (c : String), cells.length % 2 = 0 →
      docxWalkCells m (cells ++ [c]) = docxWalkCells m cells) ∧
    (∀ (m : KV) (k v : String) (rest : List String),
      pyStrip (pyRstripColon k) = "" →
      pdfWalkCells m (k :: v :: rest) = pdfWalkCells m rest) ∧
    (∀ (m : KV) (k v : String) (rest : List String),
      pyRstripColon k = "" →
      docxWalkCells m (k :: v :: rest) = docxWalkCells m rest) ∧
    (∀ (m : KV) (cells : List String) (k v : String), cells.length % 2 = 0 →
      pyStrip (pyRstripColon k) ≠ "" →
      pdfWalkCells m (cells ++ [k, v]) (pyStrip (pyRstripColon k)) =
        some (pyStrip v)) ∧
    (∀ (m : KV) (cells : List String) (k v : String), cells.length % 2 = 0 →
      pyRstripColon k ≠ "" → v ≠ "" →
      docxWalkCells m (cells ++ [k, v]) (pyStrip (pyRstripColon k)) =
        some (pyStrip v)) := by
  refine ⟨?_, ?_, ?_, ?_, ?_, ?_⟩
  · intro m cells c h
    rw [pdfWalkCells_append cells h m [c]]
    rfl
  · intro m cells c h
    rw [docxWalkCells_append cells h m [c]]
    rfl
  · intro m k v rest hk
    show pdfWalkCells (if _ then m else _) rest = pdfWalkCells m rest
    rw [if_pos hk]
  · intro m k v rest hk
    show docxWalkCells (if _ then _ else m) rest = docxWalkCells m rest
    rw [if_neg (by simp [hk])]
  · intro m cells k v h hk
    rw [pdfWalkCells_append cells h m [k, v]]
    show (if _ then _ else kvUpdate _ _ _) _ = _
    rw [if_neg hk]
    unfold kvUpdate
    rw [if_pos rfl]
  · intro m cells k v h hk hv
    rw [docxWalkCells_append cells h m [k, v]]
    show (if _ then kvUpdate _ _ _ else _) _ = _
    rw [if_pos ⟨hk, hv⟩]
    unfold kvUpdate
    rw [if_pos rfl]

/-- C4 witness: concrete instantiations of each conjunct of the amended
walker property. -/
theorem C4_walker_pairing_amended_witness :
    pdfWalkCells kvEmpty (["K:", "v1"] ++ ["odd"]) = pdfWalkCells kvEmpty ["K:", "v1"] ∧
    docxWalkCells kvEmpty (["K:", "v1"] ++ ["odd"]) = docxWalkCells kvEmpty ["K:", "v1"] ∧
    pdfWalkCells kvEmpty ("::" :: "lost" :: []) = pdfWalkCells kvEmpty [] ∧
    docxWalkCells kvEmpty ("::" :: "lost" :: []) = docxWalkCells kvEmpty [] ∧
    pdfWalkCells kvEmpty (["K:", "old"] ++ ["K:", " new "])
      (pyStrip (pyRstripColon "K:")) = some (pyStrip " new ") ∧
    docxWalkCells kvEmpty (["K:", "old"] ++ ["K:", " new "])
      (pyStrip (pyRstripColon "K:")) = some (pyStrip " new ") :=
  ⟨C4_walker_pairing_amended.1 kvEmpty ["K:", "v1"] "odd" (by decide),
   C4_walker_pairing_amended.2.1 kvEmpty ["K:", "v1"] "odd" (by decide),
   C4_walker_pairing_amended.2.2.1 kvEmpty "::" "lost" [] (by decide),
   C4_walker_pairing_amended.2.2.2.1 kvEmpty "::" "lost" [] (by decide),
   C4_walker_pairing_amended.2.2.2.2.1 kvEmpty ["K:", "old"] "K:" " new "
     (by decide) (by decide),
   C4_walker_pairing_amended.2.2.2.2.2 kvEmpty ["K:", "old"] "K:" " new "
     (by decide) (by decide) (by decide)⟩

/-- Splitting on newlines never yields an empty list of lines. -/
theorem splitNl_ne_nil : ∀ l : List Char, splitNl l ≠ [] := by
  intro l
  match l with
  | [] => simp [splitNl]
  | c :: rest =>
      unfold splitNl
      by_cases hc : c = '\n'
      · rw [if_pos hc]; simp
      · rw [if_neg hc]
        cases h : splitNl rest <;> simp

/-- Splitting on newlines and rejoining is the identity. -/
theorem joinNl_splitNl : ∀ l : List Char, joinNl (splitNl l) = l := by
  intro l
  induction l with
  | nil => rfl
  | cons c rest ih =>
      unfold splitNl
      by_cases hc : c = '\n'
      · rw [if_pos hc]
        cases h : splitNl rest with
        | nil => exact absurd h (splitNl_ne_nil rest)
        | cons m ms =>
            rw [h] at ih
            show joinNl ([] :: m :: ms) = c :: rest
            unfold joinNl
            rw [hc]
            simp [ih]
      · rw [if_neg hc]
        cases h : splitNl rest with
        | nil => exact absurd h (splitNl_ne_nil rest)
        | cons m ms =>
            rw [h] at ih
            cases ms with
            | nil =>
                show joinNl [c :: m] = c :: rest
                unfold joinNl at ih ⊢
                rw [← ih]
            | cons m₂ ms₂ =>
                show joinNl ((c :: m) :: m₂ :: ms₂) = c :: rest
                rw [← ih]
                unfold joinNl
                simp

/-- When no line of the blob is exactly a label phrase (after trimming),
the spec's floating-label removal is the identity. -/
theorem stripLabelLines_eq_self (labels : List String) (blob : String)
    (h : ∀ ln ∈ splitNl blob.data, (⟨pyStripL ln⟩ : String) ∉ labels) :
    stripLabelLines labels blob = blob := by
  unfold stripLabelLines
  have hf : (splitNl blob.data).filter
      (fun ln => !(decide ((⟨pyStripL ln⟩ : String) ∈ labels))) = splitNl blob.data := by
    refine List.filter_eq_self.mpr ?_
    intro ln hln
    simp [h ln hln]
  rw [hf, joinNl_splitNl]

/-- C2 counterexample: the PDF parser does NOT delete a line consisting
solely of the label "Description" before span extraction — the extracted
Description span on the raw blob starts at the isolated label line and so
contains the duplicated label word, unlike the label-stripped parse the
claim describes. -/
theorem C2_counterexample :
    (parse_issue_briefing_pdf
        [⟨[], some "Description\nDescription alpha beta Issue Impact"⟩]).description ≠
      (pdfParseStripped
        [⟨[], some "Description\nDescription alpha beta Issue Impact"⟩]).description ∧
    (parse_issue_briefing_pdf
        [⟨[], some "Description\nDescription alpha beta Issue Impact"⟩]).description =
      "Description alpha beta" ∧
    (pdfParseStripped
        [⟨[], some "Description\nDescription alpha beta Issue Impact"⟩]).description =
      "alpha beta" := by
  refine ⟨by decide, by decide, by decide⟩

/-- C2 amended: neither parser performs floating-label deletion — span
extraction runs on the raw combined blob, so whenever no line of the blob
consists solely of a label phrase the parsers agree with the spec's
label-stripped parsing (while the counterexample shows they can differ
when such a line exists). -/
theorem C2_no_label_stripping_amended :
    (∀ ps : List PdfPage,
      (∀ ln ∈ splitNl (pdfCombined ps).data, (⟨pyStripL ln⟩ : String) ∉ pdfLabels) →
      parse_issue_briefing_pdf ps = pdfParseStripped ps) ∧
    (∀ d : DocxDoc,
      (∀ ln ∈ splitNl (docxCombined d).data, (⟨pyStripL ln⟩ : String) ∉ docxLabels) →
      parse_icp_docx d = docxParseStripped d) := by
  constructor
  · intro ps h
    unfold parse_issue_briefing_pdf pdfParseStripped
    rw [stripLabelLines_eq_self pdfLabels (pdfCombined ps) h]
  · intro d h
    unfold parse_icp_docx docxParseStripped
    rw [stripLabelLines_eq_self docxLabels (docxCombined d) h]

/-- C2 witness: on blobs with no isolated label line, raw-blob parsing
and label-stripped parsing agree. -/
theorem C2_no_label_stripping_amended_witness :
    parse_issue_briefing_pdf [⟨[], some "Description one two Issue Impact three"⟩] =
      pdfParseStripped [⟨[], some "Description one two Issue Impact three"⟩] ∧
    parse_icp_docx ⟨["Issue Description: aa Issue Root Cause: bb"], []⟩ =
      docxParseStripped ⟨["Issue Description: aa Issue Root Cause: bb"], []⟩ :=
  ⟨C2_no_label_stripping_amended.1
      [⟨[], some "Description one two Issue Impact three"⟩] (by decide),
   C2_no_label_stripping_amended.2
      ⟨["Issue Description: aa Issue Root Cause: bb"], []⟩ (by decide)⟩

/-- C3 counterexample: a PDF whose blob contains the identifier-shaped
token "ISSUE-123" but whose tables carry no "Issue ID" key yields an
empty IssueID, although the spec's fixed-shape scan finds the token; the
parser therefore does not scan the blob for the identifier pattern. -/
theorem C3_counterexample :
    specIssueIdScan (pdfCombined [⟨[], some "see ISSUE-123 for details"⟩]) =
      some "ISSUE-123" ∧
    (parse_issue_briefing_pdf [⟨[], some "see ISSUE-123 for details"⟩]).issueId = "" ∧
    ("" : String) ≠ "ISSUE-123" := by
  refine ⟨by decide, by decide, by decide⟩

/-- The PDF key-value map depends only on the tables of the pages. -/
theorem pdfKvOf_tables_only (ps qs : List PdfPage)
    (h : ps.map (·.tables) = qs.map (·.tables)) : pdfKvOf ps = pdfKvOf qs := by
  unfold pdfKvOf
  rw [h]

/-- C3 amended: IssueID is determined solely by key lookup in the
key-value map built from the tables (PDF: key "Issue ID" with dead
fallback "Issue\nID"; DOCX: key "Source System Issue Reference"); no scan
of the text blob occurs, so the parsed IssueID is independent of all
paragraph/page text. -/
theorem C3_issue_id_lookup_only_amended :
    (∀ ps qs : List PdfPage, ps.map (·.tables) = qs.map (·.tables) →
      (parse_issue_briefing_pdf ps).issueId = (parse_issue_briefing_pdf qs).issueId) ∧
    (∀ d e : DocxDoc, d.tables = e.tables →
      (parse_icp_docx d).issueId = (parse_icp_docx e).issueId) := by
  constructor
  · intro ps qs h
    unfold parse_issue_briefing_pdf pdfFromParts
    rw [pdfKvOf_tables_only ps qs h]
  · intro d e h
    unfold parse_icp_docx docxFromParts
    rw [h]

/-- C3 witness: documents with identical tables but entirely different
text blobs (one even containing an identifier-shaped token) parse to the
same IssueID. -/
theorem C3_issue_id_lookup_only_amended_witness :
    (parse_issue_briefing_pdf [⟨[], some "body mentions ISSUE-77"⟩]).issueId =
      (parse_issue_briefing_pdf [⟨[], none⟩]).issueId ∧
    (parse_icp_docx ⟨["para about ISSUE-77"], []⟩).issueId =
      (parse_icp_docx ⟨[], []⟩).issueId :=
  ⟨C3_issue_id_lookup_only_amended.1 [⟨[], some "body mentions ISSUE-77"⟩]
      [⟨[], none⟩] (by decide),
   C3_issue_id_lookup_only_amended.2 ⟨["para about ISSUE-77"], []⟩ ⟨[], []⟩
      (by decide)⟩

/-- Document frequency over a two-document corpus is at most 2. -/
theorem df_le_two (t a b : String) : df t a b ≤ 2 := by
  unfold df
  split_ifs <;> omega

/-- The smoothed idf is at least 1 (its log factor is over an argument at
least 1, since df is at most 2). -/
theorem one_le_idf (t a b : String) : (1 : ℝ) ≤ idf t a b := by
  unfold idf
  have h2 : (df t a b : ℝ) ≤ 2 := by exact_mod_cast df_le_two t a b
  have hd : (0 : ℝ) ≤ (df t a b : ℝ) := Nat.cast_nonneg _
  have hpos : (0 : ℝ) < 1 + (df t a b : ℝ) := by linarith
  have h1 : (1 : ℝ) ≤ 3 / (1 + (df t a b : ℝ)) := by
    rw [le_div_iff₀ hpos]
    linarith
  have := Real.log_nonneg h1
  linarith

/-- Tf-idf weights are nonnegative. -/
theorem tw_nonneg (t d a b : String) : 0 ≤ tw t d a b :=
  mul_nonneg (Nat.cast_nonneg _) (le_trans zero_le_one (one_le_idf t a b))

/-- Dot products of tf-idf vectors are nonnegative. -/
theorem dotp_nonneg (a b p q : String) : 0 ≤ dotp a b p q :=
  Finset.sum_nonneg fun t _ => mul_nonneg (tw_nonneg t p a b) (tw_nonneg t q a b)

/-- The fitted vocabulary is symmetric in the two corpus documents. -/
theorem vocab_comm (a b : String) : vocab a b = vocab b a := by
  unfold vocab
  rw [List.toFinset_append, List.toFinset_append, Finset.union_comm]

/-- Document frequency is symmetric in the corpus order. -/
theorem df_comm (t a b : String) : df t a b = df t b a := Nat.add_comm _ _

/-- Idf is symmetric in the corpus order. -/
theorem idf_comm (t a b : String) : idf t a b = idf t b a := by
  unfold idf
  rw [df_comm]

/-- Tf-idf weights are symmetric in the corpus order. -/
theorem tw_comm (t d a b : String) : tw t d a b = tw t d b a := by
  unfold tw
  rw [idf_comm]

/-- Dot products are symmetric in the corpus order. -/
theorem dotp_comm_corpus (a b p q : String) : dotp a b p q = dotp b a p q := by
  unfold dotp
  rw [vocab_comm a b]
  exact Finset.sum_congr rfl fun t _ => by rw [tw_comm t p a b, tw_comm t q a b]

/-- Dot products are symmetric in the two documents. -/
theorem dotp_swap (a b p q : String) : dotp a b p q = dotp a b q p := by
  unfold dotp
  exact Finset.sum_congr rfl fun t _ => mul_comm _ _

/-- Cosine similarity is symmetric. -/
theorem cossim_comm (a b : String) : cossim a b = cossim b a := by
  have h1 : dotp b a b b = dotp a b b b := dotp_comm_corpus b a b b
  have h2 : dotp b a a a = dotp a b a a := dotp_comm_corpus b a a a
  have h3 : dotp b a b a = dotp a b a b := by
    rw [dotp_comm_corpus b a b a, dotp_swap]
  unfold cossim
  rw [h1, h2, h3]
  exact (if_congr or_comm rfl (by rw [mul_comm])).symm

/-- Cosine similarity is nonnegative (all tf-idf entries are
nonnegative). -/
theorem cossim_nonneg (a b : String) : 0 ≤ cossim a b := by
  unfold cossim
  split
  · exact le_refl 0
  · exact div_nonneg (dotp_nonneg a b a b)
      (mul_nonneg (Real.sqrt_nonneg _) (Real.sqrt_nonneg _))

/-- Cosine similarity is at most 1 (Cauchy–Schwarz). -/
theorem cossim_le_one (a b : String) : cossim a b ≤ 1 := by
  unfold cossim
  split
  · exact zero_le_one
  · rename_i hne
    push_neg at hne
    have hA : 0 < dotp a b a a := lt_of_le_of_ne (dotp_nonneg a b a a) (Ne.symm hne.1)
    have hB : 0 < dotp a b b b := lt_of_le_of_ne (dotp_nonneg a b b b) (Ne.symm hne.2)
    rw [div_le_one (by positivity)]
    have hAsq : dotp a b a a = ∑ t ∈ vocab a b, (tw t a a b) ^ 2 := by
      unfold dotp
      exact Finset.sum_congr rfl fun t _ => (sq (tw t a a b)).symm
    have hBsq : dotp a b b b = ∑ t ∈ vocab a b, (tw t b a b) ^ 2 := by
      unfold dotp
      exact Finset.sum_congr rfl fun t _ => (sq (tw t b a b)).symm
    have hcs : (dotp a b a b) ^ 2 ≤ dotp a b a a * dotp a b b b := by
      rw [hAsq, hBsq]
      exact Finset.sum_mul_sq_le_sq_mul_sq (vocab a b) (fun t => tw t a a b)
        (fun t => tw t b a b)
    have hstep : dotp a b a b ≤ Real.sqrt (dotp a b a a * dotp a b b b) := by
      rw [← Real.sqrt_sq (dotp_nonneg a b a b)]
      exact Real.sqrt_le_sqrt hcs
    rwa [Real.sqrt_mul hA.le] at hstep

/-- C1 counterexample: on the whitespace-only pair (" ", " ") — non-empty
strings with no tokens — `text_similarity` raises (`TfidfVectorizer.fit`
fails with an empty vocabulary) instead of returning a score. -/
theorem C1_counterexample : text_similarity " " " " = Except.error () := by
  rw [text_similarity, if_neg (by decide), if_pos (by decide)]

/-- C1 amended: `text_similarity` raises exactly when both strings are
non-empty but neither contains a token (at least two consecutive word
characters) — e.g. whitespace-only or punctuation-only inputs; whenever
it returns a score, that score lies in [0, 1]. -/
theorem C1_similarity_range_amended (a b : String) :
    (text_similarity a b = .error () ↔ a ≠ "" ∧ b ≠ "" ∧ vocab a b = ∅) ∧
    ∀ r : ℝ, text_similarity a b = .ok r → 0 ≤ r ∧ r ≤ 1 := by
  constructor
  · unfold text_similarity
    by_cases h1 : a = "" ∨ b = ""
    · rw [if_pos h1]
      constructor
      · intro h; exact absurd h (by simp)
      · rintro ⟨ha, hb, -⟩
        exact absurd h1 (by simp [ha, hb])
    · rw [if_neg h1]
      push_neg at h1
      by_cases h2 : vocab a b = ∅
      · rw [if_pos h2]
        simp [h1.1, h1.2, h2]
      · rw [if_neg h2]
        constructor
        · intro h; exact absurd h (by simp)
        · rintro ⟨-, -, h⟩; exact absurd h h2
  · intro r hr
    unfold text_similarity at hr
    by_cases h1 : a = "" ∨ b = ""
    · rw [if_pos h1] at hr
      injection hr with hr
      rw [← hr]
      norm_num
    · rw [if_neg h1] at hr
      by_cases h2 : vocab a b = ∅
      · rw [if_pos h2] at hr
        exact absurd hr (by simp)
      · rw [if_neg h2] at hr
        injection hr with hr
        rw [← hr]
        exact ⟨cossim_nonneg a b, cossim_le_one a b⟩

/-- C1 witness: scores returned on concrete inputs lie in [0, 1] (here
the empty pair, which scores 0). -/
theorem C1_similarity_range_amended_witness : (0 : ℝ) ≤ 0 ∧ (0 : ℝ) ≤ 1 :=
  (C1_similarity_range_amended "" "").2 0
    (by rw [text_similarity, if_pos (by decide)])

/-- C5 counterexample: "!" is a non-empty string, yet
`text_similarity "!" "!"` raises (no token of two word characters exists)
instead of returning 1.0. -/
theorem C5_counterexample :
    ("!" : String) ≠ "" ∧ text_similarity "!" "!" ≠ Except.ok 1 := by
  constructor
  · decide
  · rw [text_similarity, if_neg (by decide), if_pos (by decide)]
    simp

/-- A string whose token list is non-empty has a strictly positive
self dot product. -/
theorem dotp_self_pos (a : String) (ht : tokens a ≠ []) : 0 < dotp a a a a := by
  obtain ⟨t₀, ts, hts⟩ := List.exists_cons_of_ne_nil ht
  have hmem : t₀ ∈ tokens a := by rw [hts]; exact List.mem_cons_self t₀ ts
  have hvoc : t₀ ∈ vocab a a := by
    unfold vocab
    rw [List.mem_toFinset, List.mem_append]
    exact Or.inl hmem
  refine Finset.sum_pos' (fun t _ => mul_nonneg (tw_nonneg t a a a) (tw_nonneg t a a a))
    ⟨t₀, hvoc, ?_⟩
  have htf : 0 < tf t₀ a := List.count_pos_iff.mpr hmem
  have htw : 0 < tw t₀ a a a := by
    unfold tw
    have : (0 : ℝ) < (tf t₀ a : ℝ) := by exact_mod_cast htf
    nlinarith [one_le_idf t₀ a a]
  exact mul_pos htw htw

/-- A string with tokens yields a non-empty self-corpus vocabulary. -/
theorem vocab_self_ne_empty (a : String) (ht : tokens a ≠ []) : vocab a a ≠ ∅ := by
  obtain ⟨t₀, ts, hts⟩ := List.exists_cons_of_ne_nil ht
  refine Finset.ne_empty_of_mem (a := t₀) ?_
  unfold vocab
  rw [List.mem_toFinset, List.mem_append]
  exact Or.inl (by rw [hts]; exact List.mem_cons_self t₀ ts)

/-- C5 amended: `text_similarity a a = 1.0` for every non-empty `a` that
contains at least one token; for tokenless non-empty `a` the call raises
instead (see the counterexample). -/
theorem C5_self_similarity_amended (a : String) (ha : a ≠ "")
    (ht : tokens a ≠ []) : text_similarity a a = .ok 1 := by
  have hA : 0 < dotp a a a a := dotp_self_pos a ht
  have hc : cossim a a = 1 := by
    unfold cossim
    rw [if_neg (by push_neg; exact ⟨ne_of_gt hA, ne_of_gt hA⟩)]
    rw [Real.mul_self_sqrt hA.le]
    exact div_self (ne_of_gt hA)
  rw [text_similarity, if_neg (by simp [ha]), if_neg (vocab_self_ne_empty a ht), hc]

/-- C5 witness: a concrete tokenful string scores exactly 1 against
itself. -/
theorem C5_self_similarity_amended_witness :
    text_similarity "hello" "hello" = Except.ok 1 :=
  C5_self_similarity_amended "hello" (by decide) (by decide)

/-- C9: `text_similarity` is symmetric for all non-empty strings (the
vocabulary, df and idf are symmetric in the corpus order, and the dot
product is symmetric in its two documents). -/
theorem C9_similarity_symmetric (a b : String) (ha : a ≠ "") (hb : b ≠ "") :
    text_similarity a b = text_similarity b a := by
  unfold text_similarity
  rw [if_neg (show ¬(a = "" ∨ b = "") by simp [ha, hb]),
    if_neg (show ¬(b = "" ∨ a = "") by simp [ha, hb]),
    vocab_comm a b, cossim_comm a b]

/-- C9 witness: symmetry at a concrete pair. -/
theorem C9_similarity_symmetric_witness :
    text_similarity "ab" "cd" = text_similarity "cd" "ab" :=
  C9_similarity_symmetric "ab" "cd" (by decide) (by decide)
